import Mathlib

/-!
Shallow embedding of `src/infi/hbaapi/generators/hbaapi/__init__.py`
(the HBA API generator of infi.hbaapi), together with proofs about it.

The Python module walks Fibre Channel adapters through the SNIA HBA API,
normalizes port attributes into `Port` entities, merges statistics records,
and resolves SCSI target mappings.  External collaborators (the `headers`
module with its native-struct constants, the `c_api` bindings, the WWN value
type of `infi.dtypes.wwn`, and the `Port`/`FC_PORT_STATISTICS` definitions
of the parent package) are not part of the translated source; where their
behavior decides a property they are modelled from the specification and
marked as such.

Python integers are modelled as `Nat`/`Int`, byte strings as `List Nat`
(each element a byte value), and Python `str` values as `String`.
-/

set_option autoImplicit false

namespace Hbaapi

/-! ## Python string primitives

The Python source uses `str.replace`, `str.split('_')`, `str.capitalize`,
`str.isupper`, substring membership (`"aix" in platform`) and
`int(s, 16)`.  Each is embedded below with Python's semantics, restricted
to the ASCII strings the module actually manipulates. -/

/-- Does `pat` occur as a prefix of `l`?  (Helper for substring search and
substring replacement.) -/
def listPrefixAt : List Char → List Char → Bool
  | [], _ => true
  | _ :: _, [] => false
  | a :: as, b :: bs => a = b && listPrefixAt as bs

/-- Helper for `substrIn`: does `nd` occur anywhere inside the second list? -/
def substrAux (nd : List Char) : List Char → Bool
  | [] => listPrefixAt nd []
  | c :: cs => listPrefixAt nd (c :: cs) || substrAux nd cs

/-- Python `needle in haystack` for strings: substring membership. -/
def substrIn (needle haystack : String) : Bool :=
  substrAux needle.toList haystack.toList

/-- Fuel-driven core of `pyReplace`; the fuel is the length of the scanned
list, which bounds the number of recursion steps. -/
def pyReplaceFuel (pat rep : List Char) : Nat → List Char → List Char
  | _, [] => []
  | 0, l => l
  | fuel + 1, c :: cs =>
    if pat ≠ [] ∧ listPrefixAt pat (c :: cs) then
      rep ++ pyReplaceFuel pat rep fuel (List.drop pat.length (c :: cs))
    else
      c :: pyReplaceFuel pat rep fuel cs

/-- Python `s.replace(pat, rep)` for a nonempty pattern: replace every
non-overlapping occurrence, scanning left to right. -/
def pyReplace (pat rep s : String) : String :=
  String.mk (pyReplaceFuel pat.toList rep.toList s.toList.length s.toList)

/-- Core of `pySplitUnderscore` on character lists. -/
def splitUnderscoreAux : List Char → List (List Char)
  | [] => [[]]
  | c :: cs =>
    match splitUnderscoreAux cs with
    | [] => [[c]]
    | w :: ws => if c = '_' then [] :: w :: ws else (c :: w) :: ws

/-- Python `s.split('_')`. -/
def pySplitUnderscore (s : String) : List String :=
  (splitUnderscoreAux s.toList).map String.mk

/-- Python `s.capitalize()`: first character upper-cased, the rest
lower-cased. -/
def pyCapitalize (s : String) : String :=
  match s.toList with
  | [] => ""
  | c :: cs => String.mk (c.toUpper :: cs.map Char.toLower)

/-- Python `s.startswith(pre)`. -/
def pyStartsWith (pre s : String) : Bool :=
  listPrefixAt pre.toList s.toList

/-- Is the character cased (for the ASCII alphabet)? -/
def pyCased (c : Char) : Bool := c.isUpper || c.isLower

/-- Python `s.isupper()`: at least one cased character, and every cased
character is upper-case. -/
def pyIsUpper (s : String) : Bool :=
  s.toList.any pyCased && s.toList.all fun c => !pyCased c || c.isUpper

/-- Hexadecimal digit character for a value below 16 (lower case, as
produced by Python's `binascii.hexlify`). -/
def hexDigitChar (n : Nat) : Char :=
  if n = 0 then '0' else if n = 1 then '1' else if n = 2 then '2'
  else if n = 3 then '3' else if n = 4 then '4' else if n = 5 then '5'
  else if n = 6 then '6' else if n = 7 then '7' else if n = 8 then '8'
  else if n = 9 then '9' else if n = 10 then 'a' else if n = 11 then 'b'
  else if n = 12 then 'c' else if n = 13 then 'd' else if n = 14 then 'e'
  else 'f'

/-- Character list underlying `hexlify`: each byte contributes its high
hex digit then its low hex digit. -/
def hexlifyChars : List Nat → List Char
  | [] => []
  | b :: bs => hexDigitChar (b / 16) :: hexDigitChar (b % 16) :: hexlifyChars bs

/-- Python `binascii.hexlify(bs).decode("ascii")`: the big-endian (in byte
order) lower-case hex encoding of a byte string. -/
def hexlify (bs : List Nat) : String :=
  String.mk (hexlifyChars bs)

/-- Numeric value of one hex digit character, `none` for a non-digit. -/
def hexVal (c : Char) : Option Nat :=
  if c = '0' then some 0 else if c = '1' then some 1 else if c = '2' then some 2
  else if c = '3' then some 3 else if c = '4' then some 4 else if c = '5' then some 5
  else if c = '6' then some 6 else if c = '7' then some 7 else if c = '8' then some 8
  else if c = '9' then some 9 else if c = 'a' then some 10 else if c = 'b' then some 11
  else if c = 'c' then some 12 else if c = 'd' then some 13 else if c = 'e' then some 14
  else if c = 'f' then some 15 else if c = 'A' then some 10 else if c = 'B' then some 11
  else if c = 'C' then some 12 else if c = 'D' then some 13 else if c = 'E' then some 14
  else if c = 'F' then some 15 else none

/-- Python `int(s, 16)` on a plain digit string: `none` models the
`ValueError` raised on an empty string or a non-hex character. -/
def intOfHex (s : String) : Option Nat :=
  if s.isEmpty then none
  else s.toList.foldl (fun acc c => acc.bind fun a => (hexVal c).map fun v => 16 * a + v)
    (some 0)

/-- Inverse of `hexlifyChars` (Python `binascii.unhexlify`): decode a hex
character list back to its byte values, `none` on odd length or a
non-digit. -/
def unhexlifyChars : List Char → Option (List Nat)
  | [] => some []
  | [_] => none
  | c1 :: c2 :: cs =>
    (hexVal c1).bind fun hi =>
      (hexVal c2).bind fun lo =>
        (unhexlifyChars cs).map fun rest => (16 * hi + lo) :: rest

/-! ## Constants of the `headers` module

The Python module imports these from `infi.hbaapi.generators.hbaapi.headers`,
which is a separate file of the repository not included under `src/`.  They
are therefore modelled from the specification, using the standard SNIA
HBA API values the spec's descriptions refer to. -/

/-- Modelled from the spec: `headers.HBA_STATUS_ERROR`, the generic error
status code of the HBA API (missing `headers` module; standard value 1). -/
def HBA_STATUS_ERROR : Nat := 1

/-- Modelled from the spec: `headers.HBA_STATUS_ERROR_NOT_SUPPORTED`
(missing `headers` module; standard value 2). -/
def HBA_STATUS_ERROR_NOT_SUPPORTED : Nat := 2

/-- Modelled from the spec: `headers.HBA_STATUS_ERROR_ILLEGAL_WWN`
(missing `headers` module; standard value 5). -/
def HBA_STATUS_ERROR_ILLEGAL_WWN : Nat := 5

/-- Modelled from the spec: `headers.HBA_STATUS_ERROR_MORE_DATA`
(missing `headers` module; standard value 7). -/
def HBA_STATUS_ERROR_MORE_DATA : Nat := 7

/-- Modelled from the spec: the `headers.HBA_PORTSPEED_*` bit flags
(missing `headers` module; standard SNIA values, each a distinct bit). -/
def HBA_PORTSPEED_UNKNOWN : Nat := 0

/-- Modelled from the spec: 1 Gbit speed flag of the missing `headers`
module. -/
def HBA_PORTSPEED_1GBIT : Nat := 1

/-- Modelled from the spec: 2 Gbit speed flag of the missing `headers`
module. -/
def HBA_PORTSPEED_2GBIT : Nat := 2

/-- Modelled from the spec: 10 Gbit speed flag of the missing `headers`
module. -/
def HBA_PORTSPEED_10GBIT : Nat := 4

/-- Modelled from the spec: 4 Gbit speed flag of the missing `headers`
module. -/
def HBA_PORTSPEED_4GBIT : Nat := 8

/-- Modelled from the spec: 8 Gbit speed flag of the missing `headers`
module. -/
def HBA_PORTSPEED_8GBIT : Nat := 16

/-- Modelled from the spec: 16 Gbit speed flag of the missing `headers`
module. -/
def HBA_PORTSPEED_16GBIT : Nat := 32

/-- Modelled from the spec: 32 Gbit speed flag of the missing `headers`
module. -/
def HBA_PORTSPEED_32GBIT : Nat := 64

/-- Modelled from the spec: 20 Gbit speed flag of the missing `headers`
module. -/
def HBA_PORTSPEED_20GBIT : Nat := 128

/-- Modelled from the spec: 40 Gbit speed flag of the missing `headers`
module. -/
def HBA_PORTSPEED_40GBIT : Nat := 256

/-- Modelled from the spec: the "not negotiated" speed code of the missing
`headers` module (standard value 1 <<< 15). -/
def HBA_PORTSPEED_NOT_NEGOTIATED : Nat := 32768

/-- Modelled from the spec: the `headers.HBA_PORTSTATE_*` codes of the
missing `headers` module (standard values 1..8). -/
def HBA_PORTSTATE_UNKNOWN : Nat := 1

/-- Modelled from the spec: online port state code of the missing
`headers` module. -/
def HBA_PORTSTATE_ONLINE : Nat := 2

/-- Modelled from the spec: offline port state code of the missing
`headers` module. -/
def HBA_PORTSTATE_OFFLINE : Nat := 3

/-- Modelled from the spec: bypassed port state code of the missing
`headers` module. -/
def HBA_PORTSTATE_BYPASSED : Nat := 4

/-- Modelled from the spec: diagnostics port state code of the missing
`headers` module. -/
def HBA_PORTSTATE_DIAGNOSTICS : Nat := 5

/-- Modelled from the spec: link-down port state code of the missing
`headers` module. -/
def HBA_PORTSTATE_LINKDOWN : Nat := 6

/-- Modelled from the spec: error port state code of the missing
`headers` module. -/
def HBA_PORTSTATE_ERROR : Nat := 7

/-- Modelled from the spec: loopback port state code of the missing
`headers` module. -/
def HBA_PORTSTATE_LOOPBACK : Nat := 8

/-- Modelled from the spec: `headers.HBA_PORTTYPE`, the port-type lookup
table of the missing `headers` module, keyed by the decimal string of the
numeric code; the spec states the lookup defaults to a defined "unknown"
value instead of failing on an unrecognized code. -/
def HBA_PORTTYPE (key : String) : String :=
  if key = "1" then "Unknown"
  else if key = "2" then "Other"
  else if key = "3" then "Not Present"
  else if key = "5" then "N-Port"
  else if key = "6" then "NL-Port"
  else if key = "7" then "FL-Port"
  else if key = "8" then "F-Port"
  else "Unknown"

/-! ## The WWN value type -/

/-- Modelled from the spec: the external WWN value type
(`infi.dtypes.wwn.WWN`, an out-of-scope collaborator) carries the
hexadecimal address string it was constructed from; the module reads it
back through the `_address` attribute. -/
structure WWN where
  address : String
deriving DecidableEq, Repr

/-! ## Module-level translation functions (source lines 290-348) -/

/-- The module constant `WELL_KNOWN_FC_ADDRESSES` (source lines 17-28). -/
def WELL_KNOWN_FC_ADDRESSES : List Nat :=
  [0xFFFFF5, -- Multicast server
   0xFFFFF6, -- Clock Sync server
   0xFFFFF7, -- KDC (key distribution)
   0xFFFFF8, -- Alias server (for multicast, or hunt groups)
   0xFFFFF9, -- QoS information
   0xFFFFFA, -- Management server
   0xFFFFFB, -- Time server
   0xFFFFFC, -- Directory server
   0xFFFFFD, -- Fabric Controller
   0xFFFFFE] -- Fabric Login server

/-- The comparison `source != ''` of `translate_wwn`, where `source` is the
byte string produced by the preceding join.  Under Python 3 (`py3 = true`)
it compares `bytes` with `str`, which is never equal, so the test is always
true — even for the empty byte string.  Under Python 2 both sides are
`str`, so the test is true exactly for a nonempty source. -/
def pyBytesNeEmptyStr (py3 : Bool) (source : List Nat) : Bool :=
  if py3 then true else !source.isEmpty

/-- Embeds `translate_wwn` (source lines 290-292): re-join the byte values,
substitute eight zero bytes when the joined string compares equal to `''`,
hex-encode, and wrap in a `WWN`.  `py3` is the module constant `PY3`. -/
def translate_wwn (py3 : Bool) (source : List Nat) : WWN :=
  ⟨hexlify (if pyBytesNeEmptyStr py3 source then source else List.replicate 8 0)⟩

/-- Embeds `translate_port_type` (source lines 294-295): index the
`headers.HBA_PORTTYPE` table with `str(number)`. -/
def translate_port_type (number : Nat) : String :=
  HBA_PORTTYPE (toString number)

/-- Embeds `translate_port_speed` (source lines 297-313): dictionary `get` with
default 0 over the speed translation table. -/
def translate_port_speed (source : Nat) : Nat :=
  if source = HBA_PORTSPEED_UNKNOWN then 0
  else if source = HBA_PORTSPEED_1GBIT then 1
  else if source = HBA_PORTSPEED_2GBIT then 2
  else if source = HBA_PORTSPEED_10GBIT then 10
  else if source = HBA_PORTSPEED_4GBIT then 4
  else if source = HBA_PORTSPEED_8GBIT then 8
  else if source = HBA_PORTSPEED_16GBIT then 16
  else if source = HBA_PORTSPEED_32GBIT then 32
  else if source = HBA_PORTSPEED_20GBIT then 20
  else if source = HBA_PORTSPEED_40GBIT then 40
  else if source = HBA_PORTSPEED_NOT_NEGOTIATED then 0
  else 0

/-- The `translation` dictionary of `translate_port_supported_speeds`
(source lines 319-329), as its insertion-ordered entry list. -/
def supported_speeds_translation : List (Nat × Nat) :=
  [(HBA_PORTSPEED_1GBIT, 1),
   (HBA_PORTSPEED_2GBIT, 2),
   (HBA_PORTSPEED_10GBIT, 10),
   (HBA_PORTSPEED_4GBIT, 4),
   (HBA_PORTSPEED_8GBIT, 8),
   (HBA_PORTSPEED_16GBIT, 16),
   (HBA_PORTSPEED_32GBIT, 32),
   (HBA_PORTSPEED_20GBIT, 20),
   (HBA_PORTSPEED_40GBIT, 40)]

/-- The `for key in keys` loop of `translate_port_supported_speeds`
(source lines 332-335): the pairs are visited with keys sorted in
descending order; for each key whose bits intersect the remaining mask the
Gbit value is appended and the key subtracted from the mask.  Iterating
(key, value) pairs is equivalent to the source's iteration over `keys`
with `translation[key]` lookups because the dictionary keys are distinct. -/
def speedLoop : List (Nat × Nat) → Nat → List Nat
  | [], _ => []
  | kv :: rest, source =>
    if kv.1 &&& source ≠ 0 then kv.2 :: speedLoop rest (source - kv.1)
    else speedLoop rest source

/-- Embeds `translate_port_supported_speeds` (source lines 315-337): iterate the
translation keys sorted descending, collect values of flags present,
subtracting each matched flag from the mask, and sort the result
ascending (`result.sort()`). -/
def translate_port_supported_speeds (source : Nat) : List Nat :=
  List.insertionSort (· ≤ ·)
    (speedLoop
      (List.insertionSort (fun a b => b.1 ≤ a.1) supported_speeds_translation)
      source)

/-- Embeds `translate_port_state` (source lines 339-348): plain dictionary
indexing.  `none` models the `KeyError` raised on an unrecognized code;
`some none` models the Python `None` stored for the "unknown" state. -/
def translate_port_state (source : Nat) : Option (Option String) :=
  if source = HBA_PORTSTATE_UNKNOWN then some none
  else if source = HBA_PORTSTATE_ONLINE then some (some "online")
  else if source = HBA_PORTSTATE_OFFLINE then some (some "offline")
  else if source = HBA_PORTSTATE_BYPASSED then some (some "bypassed")
  else if source = HBA_PORTSTATE_DIAGNOSTICS then some (some "diagnostics")
  else if source = HBA_PORTSTATE_LINKDOWN then some (some "link down")
  else if source = HBA_PORTSTATE_ERROR then some (some "error")
  else if source = HBA_PORTSTATE_LOOPBACK then some (some "lookback")
  else none

/-! ## Port entities -/

/-- Modelled from the spec: the `Port` entity of the parent package (not
under `src/`) is a record of named attributes.  Only the fields the
translated methods read or write are carried: `port_wwn` (a `WWN` built by
`translate_wwn`), `port_fcid` (the 24-bit FC address), `port_state` (the
value produced by `translate_port_state`, where `none` is the Python
`None` stored for the "unknown" state), and `hct`, the host/channel/target
triple. -/
structure Port where
  port_wwn : WWN
  port_fcid : Nat
  port_state : Option String
  hct : Int × Int × Int
deriving DecidableEq, Repr

/-- Embeds `HbaApi._get_remote_ports` (source lines 62-76), parameterized by the
list of `Port` entities that `get_port_object` builds from the attribute
records of remote indices `0 .. number_of_remote_ports - 1`, in discovery
order.  A port whose `port_fcid` is a well-known FC address is dropped,
otherwise a port whose `port_state` equals `'offline'` is dropped,
otherwise the port is appended to the result. -/
def get_remote_ports : List Port → List Port
  | [] => []
  | remote_port :: rest =>
    if remote_port.port_fcid ∈ WELL_KNOWN_FC_ADDRESSES then
      get_remote_ports rest
    else if remote_port.port_state = some "offline" then
      get_remote_ports rest
    else
      remote_port :: get_remote_ports rest

/-! ## SCSI target mappings -/

/-- One decoded `HBA_FcpScsiEntryV2` row, carrying the fields the module
reads: `FcId.PortWWN` as its raw byte values, and the `ScsiId` numbers.
(`OSDeviceName` and `ScsiOSLun` are used only by `iter_port_mappings`,
which no claim depends on, and are omitted.) -/
structure MappingEntry where
  PortWWN : List Nat
  ScsiBusNumber : Int
  ScsiTargetNumber : Int
deriving DecidableEq, Repr

/-- A decoded `HBA_FCPTargetMappingV2` table: the `NumberOfEntries` field
(the first field of the serialized buffer) and the entry rows. -/
structure MappingTable where
  NumberOfEntries : Nat
  entry : List MappingEntry
deriving DecidableEq, Repr

/-- A zero-filled `HBA_FcpScsiEntryV2`, as decoded from `b'\x00' * size`
in `_build_empty_mappings_struct`: the WWN bytes are eight zeros and the
numeric fields zero. -/
def emptyMappingEntry : MappingEntry :=
  { PortWWN := List.replicate 8 0, ScsiBusNumber := 0, ScsiTargetNumber := 0 }

/-- Embeds `HbaApi._build_empty_mappings_struct` (source lines 182-187): a table
skeleton with `NumberOfEntries = number_of_elements` and that many
zero-filled entries. -/
def build_empty_mappings_struct (number_of_elements : Nat) : MappingTable :=
  { NumberOfEntries := number_of_elements
    entry := List.replicate number_of_elements emptyMappingEntry }

/-- Modelled from the spec: `headers.HBA_FCPTargetMappingV2.create_empty()`
of the missing `headers` module — an empty, valid mapping table. -/
def createEmptyMappingTable : MappingTable :=
  { NumberOfEntries := 0, entry := [] }

/-- One call to `c_api.HBA_GetFcpTargetMappingV2`, abstracted at the level
of decoded tables: the service either succeeds and leaves `response` in
the caller's buffer, or fails with `code` while still having written
`response` into the buffer (on `HBA_STATUS_ERROR_MORE_DATA` the response's
first field, `NumberOfEntries`, holds the true element count). -/
inductive SvcOutcome where
  | ok (response : MappingTable)
  | err (code : Nat) (response : MappingTable)
deriving DecidableEq, Repr

/-- Embeds `HbaApi._get_local_port_mappings_count` (source lines 189-199), with
`svc1` the service's outcome for the zero-capacity probe call.  When the
call raises with `HBA_STATUS_ERROR_MORE_DATA`, the element count is read
back from the first field of the buffer (`UNInt32.create_from_string`
reads the leading `NumberOfEntries` field); any other outcome — success,
or a failure with any other code — falls through to `return 0`. -/
def get_local_port_mappings_count (svc1 : SvcOutcome) : Nat :=
  match svc1 with
  | .ok _ => 0
  | .err code response =>
    if code = HBA_STATUS_ERROR_MORE_DATA then response.NumberOfEntries else 0

/-- Embeds `HbaApi._get_local_port_mappings` (source lines 201-228), with `svc1`
and `svc2` the service outcomes of the probe call and of the sized call.
The first component lists the buffer contents passed to the two
`HBA_GetFcpTargetMappingV2` calls, in order: the probe is issued with the
serialized zero-element skeleton (`b'\x00' * size`), and the second call
with the serialized skeleton of `number_of_entries` elements.  The second
component is the returned table, or `Except.error code` for a re-raised
failure: the sized call's failure is recovered into an empty table for the
codes `HBA_STATUS_ERROR_ILLEGAL_WWN`, `HBA_STATUS_ERROR_NOT_SUPPORTED`,
`HBA_STATUS_ERROR_MORE_DATA` and `HBA_STATUS_ERROR`, and re-raised
otherwise. -/
def get_local_port_mappings (svc1 svc2 : SvcOutcome) :
    List MappingTable × Except Nat MappingTable :=
  let number_of_entries := get_local_port_mappings_count svc1
  let requests := [build_empty_mappings_struct 0,
                   build_empty_mappings_struct number_of_entries]
  match svc2 with
  | .ok response => (requests, .ok response)
  | .err code _ =>
    if code = HBA_STATUS_ERROR_ILLEGAL_WWN then (requests, .ok createEmptyMappingTable)
    else if code = HBA_STATUS_ERROR_NOT_SUPPORTED then (requests, .ok createEmptyMappingTable)
    else if code = HBA_STATUS_ERROR_MORE_DATA then (requests, .ok createEmptyMappingTable)
    else if code = HBA_STATUS_ERROR then (requests, .ok createEmptyMappingTable)
    else (requests, .error code)

/-- The comparison `entry.FcId.PortWWN == ''` of `_mappings_to_dict` and
`iter_port_mappings`: the decoded `PortWWN` field is a list of byte
values, and a Python list never compares equal to the string `''`, so the
test is always false. -/
def portWwnEqEmptyStr (_bs : List Nat) : Bool :=
  false

/-- The inner `get_target_number` of `_mappings_to_dict` (source lines
160-164): on a platform string containing "solaris" or "aix" the target
number is the WWN of the row parsed as a hexadecimal integer (`none`
models the `ValueError` of `int` on a non-hex address); otherwise it is
the native `ScsiId.ScsiTargetNumber` field. -/
def get_target_number (py3 : Bool) (platform : String) (entry : MappingEntry) :
    Option Int :=
  if substrIn "solaris" platform || substrIn "aix" platform then
    (intOfHex (translate_wwn py3 entry.PortWWN).address).map Int.ofNat
  else
    some entry.ScsiTargetNumber

/-- First-match association lookup, the model of indexing the Python
dictionary built by `_mappings_to_dict` (entries are pushed to the front,
so the first match is the last writer, as in a Python dict). -/
def dictGet (d : List (WWN × (Int × Int))) (k : WWN) : Option (Int × Int) :=
  match d with
  | [] => none
  | kv :: rest => if kv.1 = k then some kv.2 else dictGet rest k

/-- Embeds `HbaApi._mappings_to_dict` (source lines 159-176): fold over the
table's rows, skipping rows whose `PortWWN` compares equal to `''` (a
comparison that is in fact always false, see `portWwnEqEmptyStr`), and
mapping the translated WWN to `(ScsiBusNumber, target number)`.  `none`
models a `ValueError` escaping from `get_target_number`. -/
def mappings_to_dict (py3 : Bool) (platform : String) (mappings : MappingTable) :
    Option (List (WWN × (Int × Int))) :=
  mappings.entry.foldlM
    (fun result entry =>
      if portWwnEqEmptyStr entry.PortWWN then some result
      else
        (get_target_number py3 platform entry).map fun target =>
          (translate_wwn py3 entry.PortWWN, (entry.ScsiBusNumber, target)) :: result)
    []

/-- The remote-port loop at the end of `HbaApi._get_local_port` (source
lines 105-112): build the mapping dictionary from the port's mapping
table, then give every discovered remote port the triple
`(port.hct[0], channel, target)` — on a platform whose string contains
"aix", `channel = 0` and `target = int(remote_port.port_wwn._address, 16)`
with the dictionary ignored; on every other platform `(channel, target)`
is the dictionary entry for the remote port's WWN, defaulting to
`(-1, -1)`.  `none` models a `ValueError` escaping from `int`. -/
def assign_discovered_ports_hct (py3 : Bool) (platform : String)
    (local_hct : Int × Int × Int) (mappings : MappingTable)
    (discovered_ports : List Port) : Option (List Port) :=
  (mappings_to_dict py3 platform mappings).bind fun port_mappings =>
    discovered_ports.mapM fun remote_port =>
      if substrIn "aix" platform then
        (intOfHex remote_port.port_wwn.address).map fun target =>
          { remote_port with hct := (local_hct.1, 0, Int.ofNat target) }
      else
        let ct := (dictGet port_mappings remote_port.port_wwn).getD (-1, -1)
        some { remote_port with hct := (local_hct.1, ct.1, ct.2) }

/-! ## Statistics merger (source lines 140-157) -/

/-- The name mangling of the inner `_merge_hba_port_stat` (source lines
142-146): apply the three substring overrides `nos -> NOS`, `lip -> LIP`,
`crc -> CRC`, split on underscores, keep a word unchanged if it is already
all upper-case (`item.isupper()`) and capitalize it otherwise, then join. -/
def merge_hba_port_stat_name (name : String) : String :=
  String.join
    ((pySplitUnderscore
        (pyReplace "crc" "CRC" (pyReplace "lip" "LIP" (pyReplace "nos" "NOS" name)))).map
      fun item => if pyIsUpper item then item else pyCapitalize item)

/-- The name mangling of the inner `_merge_hba_fcp4_stat` (source lines
149-150): remove every occurrence of `fcp_`, split on underscores,
capitalize each word, join. -/
def merge_hba_fcp4_stat_name (name : String) : String :=
  String.join ((pySplitUnderscore (pyReplace "fcp_" "" name)).map pyCapitalize)

/-- Embeds `HbaApi._merge_statistics` (source lines 140-157), parameterized by
the canonical counter-name list `FC_PORT_STATISTICS` (defined in the
parent package, not under `src/`) and the two optional decoded source
records, each read through `getattr` by mangled field name.  The result
maps every canonical name to the value `setattr` stores on the
`port_statistics` record: `-1` when the needed source record is `None`,
and the source record's mangled-name field otherwise. -/
def merge_statistics (fc_port_statistics : List String)
    (hba_port_stats hba_fc4_stats : Option (String → Int)) :
    List (String × Int) :=
  fc_port_statistics.map fun name =>
    if pyStartsWith "fcp_" name then
      (name, match hba_fc4_stats with
             | none => -1
             | some stats => stats (merge_hba_fcp4_stat_name name))
    else
      (name, match hba_port_stats with
             | none => -1
             | some stats => stats (merge_hba_port_stat_name name))

/-! ## The adapter walk (source lines 230-243) -/

/-- The outcome of processing one adapter inside `_iter_ports`: either the
adapter attributes were fetched and the adapter's port indices produced
the listed local ports, or `HBA_GetAdapterAttributes` raised
`NotImplementedError`, or some other exception escaped. -/
inductive AdapterFetch where
  | ok (ports : List Port)
  | notImplemented
  | failed
deriving DecidableEq, Repr

/-- Embeds `HbaApi._iter_ports` (source lines 230-243), parameterized by the
outcome of each enumerated adapter, in order.  Returns the local ports the
generator yields and whether it ran to completion: an adapter whose
attribute fetch raised `NotImplementedError` is skipped (`continue`) and
the walk proceeds with the next adapter; any other exception escapes the
generator, ending the iteration after the ports yielded so far. -/
def iter_ports_walk : List AdapterFetch → List Port × Bool
  | [] => ([], true)
  | .ok ports :: rest =>
    let tail := iter_ports_walk rest
    (ports ++ tail.1, tail.2)
  | .notImplemented :: rest => iter_ports_walk rest
  | .failed :: _ => ([], false)

/-! ## Theorems -/

/-- C1: For every scan and every local port, no remote `Port` whose
`port_fcid` is one of the ten listed well-known FC addresses
(0xFFFFF5..0xFFFFFE) and no remote `Port` whose `port_state` is offline
ever appears in that local port's `discovered_ports`; every other
discovered remote port is kept, in discovery order. -/
theorem get_remote_ports_spec (ports : List Port) :
    get_remote_ports ports =
      ports.filter (fun p =>
        !decide (p.port_fcid ∈ WELL_KNOWN_FC_ADDRESSES) &&
        !decide (p.port_state = some "offline")) ∧
    ∀ p, p ∈ get_remote_ports ports →
      p.port_fcid ∉ WELL_KNOWN_FC_ADDRESSES ∧ p.port_state ≠ some "offline" := by
  have hfilter : get_remote_ports ports =
      ports.filter (fun p =>
        !decide (p.port_fcid ∈ WELL_KNOWN_FC_ADDRESSES) &&
        !decide (p.port_state = some "offline")) := by
    induction ports with
    | nil => rfl
    | cons q rest ih =>
      by_cases h1 : q.port_fcid ∈ WELL_KNOWN_FC_ADDRESSES
      · simp [get_remote_ports, h1, ih]
      · by_cases h2 : q.port_state = some "offline"
        · simp [get_remote_ports, h1, h2, ih]
        · simp [get_remote_ports, h1, h2, ih]
  refine ⟨hfilter, ?_⟩
  intro p hp
  rw [hfilter] at hp
  have hmem := (List.mem_filter.mp hp).2
  constructor
  · intro hfc
    simp [hfc] at hmem
  · intro hstate
    simp [hstate] at hmem

/-- A sample online remote port with an ordinary fabric address, used by
the witness of `get_remote_ports_spec`. -/
def samplePort : Port :=
  { port_wwn := ⟨"5001438012345678"⟩
    port_fcid := 0x010203
    port_state := some "online"
    hct := (-1, -1, -1) }

/-- Witness for `get_remote_ports_spec` at a concrete port list. -/
theorem get_remote_ports_spec_witness :
    samplePort.port_fcid ∉ WELL_KNOWN_FC_ADDRESSES ∧
    samplePort.port_state ≠ some "offline" :=
  (get_remote_ports_spec [samplePort]).2 samplePort (by decide)

/-- C9: When fetching an adapter's attributes fails with the
"not implemented" condition, the walk skips only that adapter and
continues with the next one: the generator's output over any adapter
sequence is unchanged by removing such an adapter, and a run over
adapters that all report their ports yields every remaining adapter's
ports (no early abort). -/
theorem iter_ports_walk_spec (pre post : List AdapterFetch)
    (yields : List (List Port)) :
    iter_ports_walk (pre ++ AdapterFetch.notImplemented :: post) =
      iter_ports_walk (pre ++ post) ∧
    iter_ports_walk (yields.map AdapterFetch.ok) = (yields.flatten, true) := by
  constructor
  · induction pre with
    | nil => simp [iter_ports_walk]
    | cons a rest ih =>
      cases a <;> simp [iter_ports_walk, ih]
  · induction yields with
    | nil => rfl
    | cons l rest ih => simp [iter_ports_walk, ih]

/-- C3: When the mapping-table fetch fails with any of exactly four status
codes — illegal WWN, not supported, more-data on the second (sized) call,
or the generic error code — the resolver returns an empty, valid mapping
table instead of raising; for any other failure code of the sized call,
the error propagates to the caller unchanged. -/
theorem get_local_port_mappings_error_spec (svc1 : SvcOutcome) (code : Nat)
    (buf : MappingTable) :
    ((get_local_port_mappings svc1 (SvcOutcome.err code buf)).2 =
        Except.ok createEmptyMappingTable ↔
      code = HBA_STATUS_ERROR_ILLEGAL_WWN ∨ code = HBA_STATUS_ERROR_NOT_SUPPORTED ∨
        code = HBA_STATUS_ERROR_MORE_DATA ∨ code = HBA_STATUS_ERROR) ∧
    ((get_local_port_mappings svc1 (SvcOutcome.err code buf)).2 = Except.error code ↔
      ¬(code = HBA_STATUS_ERROR_ILLEGAL_WWN ∨ code = HBA_STATUS_ERROR_NOT_SUPPORTED ∨
        code = HBA_STATUS_ERROR_MORE_DATA ∨ code = HBA_STATUS_ERROR)) ∧
    createEmptyMappingTable.NumberOfEntries = 0 ∧
    createEmptyMappingTable.entry = [] := by
  refine ⟨?_, ?_, rfl, rfl⟩ <;>
    · simp only [get_local_port_mappings]
      split_ifs <;> simp_all

/-- C4: The mapping-table fetch follows a two-phase protocol: first a
request with a zero-capacity table; if the service answers "more data",
the true element count is read from the first field of the response
buffer, and then exactly one re-issued request is made with a buffer
pre-filled by serializing an empty table skeleton of exactly that element
count. -/
theorem two_phase_mapping_fetch_spec (buf : MappingTable) (svc2 : SvcOutcome) :
    (get_local_port_mappings (SvcOutcome.err HBA_STATUS_ERROR_MORE_DATA buf) svc2).1 =
      [build_empty_mappings_struct 0,
       build_empty_mappings_struct buf.NumberOfEntries] ∧
    (get_local_port_mappings (SvcOutcome.err HBA_STATUS_ERROR_MORE_DATA buf) svc2).1.length = 2 := by
  cases svc2 with
  | ok response => exact ⟨rfl, rfl⟩
  | err code response =>
    constructor
    · simp only [get_local_port_mappings]
      split_ifs <;> rfl
    · simp only [get_local_port_mappings]
      split_ifs <;> rfl

/-- C10: The sized mapping-table fetch is always issued, even when the
zero-capacity probe did not answer "more data": a probe that succeeds
outright, or fails with any status code other than "more data", is
swallowed and reported as an element count of 0, and the second call is
then made with a zero-entry buffer rather than being skipped or the probe
error being propagated. -/
theorem mappings_probe_swallowed_spec (svc1 svc2 : SvcOutcome)
    (buf : MappingTable) (code : Nat) :
    get_local_port_mappings_count (SvcOutcome.ok buf) = 0 ∧
    get_local_port_mappings_count (SvcOutcome.err code buf) =
      (if code = HBA_STATUS_ERROR_MORE_DATA then buf.NumberOfEntries else 0) ∧
    (get_local_port_mappings svc1 svc2).1 =
      [build_empty_mappings_struct 0,
       build_empty_mappings_struct (get_local_port_mappings_count svc1)] ∧
    (get_local_port_mappings svc1 (SvcOutcome.ok buf)).2 = Except.ok buf := by
  refine ⟨rfl, rfl, ?_, ?_⟩
  · cases svc2 with
    | ok response => rfl
    | err code2 response2 =>
      simp only [get_local_port_mappings]
      split_ifs <;> rfl
  · rfl

/-- The value list collected by `speedLoop` is a sublist of the
translation table's value column: each flag contributes its value at most
once. -/
theorem speedLoop_sublist (l : List (Nat × Nat)) :
    ∀ source : Nat, List.Sublist (speedLoop l source) (l.map Prod.snd) := by
  induction l with
  | nil => intro source; simp [speedLoop]
  | cons kv rest ih =>
    intro source
    by_cases h : kv.1 &&& source ≠ 0
    · simp only [speedLoop, if_pos h, List.map_cons]
      exact (ih (source - kv.1)).cons₂ kv.2
    · simp only [speedLoop, if_neg h, List.map_cons]
      exact (ih source).cons kv.2

/-- C7: For every bitmask, `translate_port_supported_speeds` iterates the
known speed flags from highest bit value to lowest, appends the Gbit/s
value of each flag present in the mask and subtracts that flag from the
mask (so overlapping bit values are not double-counted: the result never
holds a value twice), and returns the list sorted ascending; in
particular a mask combining the 4 Gbit and 8 Gbit flags yields `[4, 8]`,
and mask 0 yields `[]`. -/
theorem translate_port_supported_speeds_spec (source : Nat) :
    List.Sorted (· ≤ ·) (translate_port_supported_speeds source) ∧
    (translate_port_supported_speeds source).Nodup ∧
    translate_port_supported_speeds (HBA_PORTSPEED_4GBIT ||| HBA_PORTSPEED_8GBIT) = [4, 8] ∧
    translate_port_supported_speeds 0 = [] := by
  refine ⟨List.sorted_insertionSort _ _, ?_, by decide, by decide⟩
  have hsub := speedLoop_sublist
    (List.insertionSort (fun a b => b.1 ≤ a.1) supported_speeds_translation) source
  have hnodup : ((List.insertionSort (fun a b => b.1 ≤ a.1)
      supported_speeds_translation).map Prod.snd).Nodup := by decide
  exact ((List.perm_insertionSort (· ≤ ·) _).nodup_iff).mpr (hnodup.sublist hsub)

/-- C8: An unrecognized `port_state` code raises a fatal error (no silent
default), while the other enum translations default non-fatally:
`translate_port_speed` returns 0 both for the "not negotiated" code and
for any unrecognized numeric code, and `translate_port_type` defaults to
a defined "unknown" value rather than failing on an unrecognized code. -/
theorem enum_translation_fatality_spec (code : Nat) :
    (code ∉ [HBA_PORTSTATE_UNKNOWN, HBA_PORTSTATE_ONLINE, HBA_PORTSTATE_OFFLINE,
             HBA_PORTSTATE_BYPASSED, HBA_PORTSTATE_DIAGNOSTICS, HBA_PORTSTATE_LINKDOWN,
             HBA_PORTSTATE_ERROR, HBA_PORTSTATE_LOOPBACK] →
       translate_port_state code = none) ∧
    translate_port_speed HBA_PORTSPEED_NOT_NEGOTIATED = 0 ∧
    (code ∉ [HBA_PORTSPEED_UNKNOWN, HBA_PORTSPEED_1GBIT, HBA_PORTSPEED_2GBIT,
             HBA_PORTSPEED_10GBIT, HBA_PORTSPEED_4GBIT, HBA_PORTSPEED_8GBIT,
             HBA_PORTSPEED_16GBIT, HBA_PORTSPEED_32GBIT, HBA_PORTSPEED_20GBIT,
             HBA_PORTSPEED_40GBIT, HBA_PORTSPEED_NOT_NEGOTIATED] →
       translate_port_speed code = 0) ∧
    (toString code ∉ ["1", "2", "3", "5", "6", "7", "8"] →
       translate_port_type code = "Unknown") := by
  refine ⟨?_, rfl, ?_, ?_⟩
  · intro h
    simp only [List.mem_cons, List.not_mem_nil, not_or, or_false] at h
    obtain ⟨g1, g2, g3, g4, g5, g6, g7, g8⟩ := h
    unfold translate_port_state
    split_ifs
    rfl
  · intro h
    simp only [List.mem_cons, List.not_mem_nil, not_or, or_false] at h
    obtain ⟨g0, g1, g2, g10, g4, g8, g16, g32, g20, g40, gn⟩ := h
    unfold translate_port_speed
    split_ifs
    rfl
  · intro h
    simp only [List.mem_cons, List.not_mem_nil, not_or, or_false] at h
    obtain ⟨n1, n2, n3, n5, n6, n7, n8⟩ := h
    unfold translate_port_type HBA_PORTTYPE
    split_ifs
    rfl

/-- Witness for `enum_translation_fatality_spec` at the unrecognized
code 999. -/
theorem enum_translation_fatality_spec_witness :
    translate_port_state 999 = none ∧
    translate_port_speed 999 = 0 ∧
    translate_port_type 999 = "Unknown" :=
  ⟨(enum_translation_fatality_spec 999).1 (by decide),
   (enum_translation_fatality_spec 999).2.2.1 (by decide),
   (enum_translation_fatality_spec 999).2.2.2 (by decide)⟩

/-- C5: In the statistics merger, when both source records are absent
every canonical counter is set to -1; when only the link-level record is
present, every `fcp_`-prefixed counter is -1 while every other counter
takes the link-level record's field value, located by the name-mangling
rule: for `fcp_` names strip the prefix and capitalize each
underscore-separated word; for link-level names first apply the three
overrides nos->NOS, lip->LIP, crc->CRC and then capitalize each
underscore-separated word that is not already all-uppercase (shown
concretely on representative counter names). -/
theorem merge_statistics_spec (fc_port_statistics : List String)
    (stats : String → Int) (nm : String) (v : Int) :
    ((nm, v) ∈ merge_statistics fc_port_statistics none none → v = -1) ∧
    ((nm, v) ∈ merge_statistics fc_port_statistics (some stats) none →
       (pyStartsWith "fcp_" nm = true → v = -1) ∧
       (pyStartsWith "fcp_" nm = false → v = stats (merge_hba_port_stat_name nm))) ∧
    merge_hba_port_stat_name "nos_count" = "NOSCount" ∧
    merge_hba_port_stat_name "lip_count" = "LIPCount" ∧
    merge_hba_port_stat_name "invalid_crc_count" = "InvalidCRCCount" ∧
    merge_hba_port_stat_name "link_failure_count" = "LinkFailureCount" ∧
    merge_hba_fcp4_stat_name "fcp_input_requests" = "InputRequests" := by
  refine ⟨?_, ?_, by decide, by decide, by decide, by decide, by decide⟩
  · intro hmem
    simp only [merge_statistics, List.mem_map] at hmem
    obtain ⟨name, hname, heq⟩ := hmem
    split at heq <;> (injection heq with h1 h2; exact h2.symm)
  · intro hmem
    simp only [merge_statistics, List.mem_map] at hmem
    obtain ⟨name, hname, heq⟩ := hmem
    split at heq
    next hf =>
      injection heq with h1 h2
      subst h1
      refine ⟨fun _ => h2.symm, fun hfalse => ?_⟩
      simp [hfalse] at hf
    next hf =>
      injection heq with h1 h2
      subst h1
      refine ⟨fun htrue => absurd htrue hf, fun _ => h2.symm⟩

/-- Witness for `merge_statistics_spec` at a concrete one-counter list. -/
theorem merge_statistics_spec_witness :
    (-1 : Int) = -1 ∧
    (7 : Int) = (fun _ => (7 : Int)) (merge_hba_port_stat_name "lip_count") := by
  constructor
  · exact (merge_statistics_spec ["lip_count"] (fun _ => 7) "lip_count" (-1)).1
      (by decide)
  · exact ((merge_statistics_spec ["lip_count"] (fun _ => 7) "lip_count" 7).2.1
      (by decide)).2 (by decide)

/-- A successful `mapM` over the `Option` monad relates input and output
pointwise. -/
theorem mapM_option_forall2 {α β : Type} (f : α → Option β) :
    ∀ (l : List α) (res : List β), l.mapM f = some res →
      List.Forall₂ (fun a b => f a = some b) l res := by
  intro l
  induction l with
  | nil =>
    intro res h
    rw [List.mapM_nil] at h
    cases h
    exact List.Forall₂.nil
  | cons a as ih =>
    intro res h
    rw [List.mapM_cons] at h
    cases hfa : f a with
    | none => rw [hfa] at h; cases h
    | some b =>
      rw [hfa] at h
      cases hrest : as.mapM f with
      | none => rw [hrest] at h; cases h
      | some bs =>
        rw [hrest] at h
        cases h
        exact List.Forall₂.cons hfa (ih bs hrest)

/-- C2: For every kept remote port of a local port, its `hct` equals
`(local_port.hct[0], channel, target)` where `(channel, target)` is looked
up by the remote port's WWN in the mapping dictionary built from the local
port's mapping table, defaulting to `(-1, -1)` when the WWN is absent from
the dictionary — except when the platform string contains "aix", in which
case channel is always 0 and target is the integer value of the remote
port's WWN parsed as hex, with the mapping table ignored. -/
theorem assign_discovered_ports_hct_spec (py3 : Bool) (platform : String)
    (local_hct : Int × Int × Int) (mappings : MappingTable)
    (discovered_ports res : List Port)
    (h : assign_discovered_ports_hct py3 platform local_hct mappings
           discovered_ports = some res) :
    ∃ port_mappings,
      mappings_to_dict py3 platform mappings = some port_mappings ∧
      List.Forall₂ (fun remote_port out =>
        (substrIn "aix" platform = true →
           ∃ target, intOfHex remote_port.port_wwn.address = some target ∧
             out = { remote_port with
                       hct := (local_hct.1, 0, Int.ofNat target) }) ∧
        (substrIn "aix" platform = false →
           out = { remote_port with
                     hct := (local_hct.1,
                       ((dictGet port_mappings remote_port.port_wwn).getD (-1, -1)).1,
                       ((dictGet port_mappings remote_port.port_wwn).getD (-1, -1)).2) }))
        discovered_ports res := by
  unfold assign_discovered_ports_hct at h
  cases hd : mappings_to_dict py3 platform mappings with
  | none => rw [hd] at h; cases h
  | some port_mappings =>
    rw [hd] at h
    rw [Option.some_bind] at h
    refine ⟨port_mappings, rfl, ?_⟩
    refine (mapM_option_forall2 _ _ _ h).imp ?_
    intro remote_port out hf
    by_cases haix : substrIn "aix" platform = true
    · rw [if_pos haix] at hf
      rcases Option.map_eq_some'.mp hf with ⟨target, htarget, hout⟩
      exact ⟨fun _ => ⟨target, htarget, hout.symm⟩,
             fun hfalse => absurd haix (by simp [hfalse])⟩
    · rw [if_neg haix] at hf
      cases hf
      exact ⟨fun htrue => absurd htrue haix,
             fun _ => rfl⟩

/-- The mapping table used by the witness of
`assign_discovered_ports_hct_spec`: one row binding the WWN
50:01:43:80:12:34:56:78 to bus 0, target 5. -/
def sampleMappingTable : MappingTable :=
  { NumberOfEntries := 1
    entry := [{ PortWWN := [0x50, 0x01, 0x43, 0x80, 0x12, 0x34, 0x56, 0x78]
                ScsiBusNumber := 0
                ScsiTargetNumber := 5 }] }

/-- Witness for `assign_discovered_ports_hct_spec` on a non-aix platform:
the sample remote port's WWN is found in the dictionary built from
`sampleMappingTable`, so its `hct` becomes `(3, 0, 5)`. -/
theorem assign_discovered_ports_hct_spec_witness :
    ∃ port_mappings,
      mappings_to_dict true "windows-x64" sampleMappingTable = some port_mappings ∧
      List.Forall₂ (fun remote_port out =>
        (substrIn "aix" "windows-x64" = true →
           ∃ target, intOfHex remote_port.port_wwn.address = some target ∧
             out = { remote_port with
                       hct := (((3 : Int), (-1 : Int), (-1 : Int)).1, 0, Int.ofNat target) }) ∧
        (substrIn "aix" "windows-x64" = false →
           out = { remote_port with
                     hct := (((3 : Int), (-1 : Int), (-1 : Int)).1,
                       ((dictGet port_mappings remote_port.port_wwn).getD (-1, -1)).1,
                       ((dictGet port_mappings remote_port.port_wwn).getD (-1, -1)).2) }))
        [samplePort] [{ samplePort with hct := (3, 0, 5) }] :=
  assign_discovered_ports_hct_spec true "windows-x64" (3, -1, -1)
    sampleMappingTable [samplePort] [{ samplePort with hct := (3, 0, 5) }]
    (by decide)

/-- For a hex digit value below 16, `hexVal` inverts `hexDigitChar`. -/
theorem hexVal_hexDigitChar (n : Nat) (h : n < 16) :
    hexVal (hexDigitChar n) = some n := by
  interval_cases n <;> rfl

/-- Lemma: `hexlify` produces two characters per byte, and decoding reproduces
the byte values: the hex encoding round-trips on every byte string. -/
theorem hexlify_roundtrip (bs : List Nat) (hb : ∀ b ∈ bs, b < 256) :
    (hexlifyChars bs).length = 2 * bs.length ∧
    unhexlifyChars (hexlifyChars bs) = some bs := by
  induction bs with
  | nil => exact ⟨rfl, rfl⟩
  | cons b rest ih =>
    have hbb : b < 256 := hb b (List.mem_cons_self b rest)
    have hrest := ih fun x hx => hb x (List.mem_cons_of_mem _ hx)
    constructor
    · have hlen := hrest.1
      simp only [hexlifyChars, List.length_cons]
      omega
    · have hdecode := hrest.2
      have h1 := hexVal_hexDigitChar (b / 16) (by omega)
      have h2 := hexVal_hexDigitChar (b % 16) (by omega)
      simp only [hexlifyChars, unhexlifyChars, h1, h2, hdecode,
        Option.some_bind', Option.map_some', Option.some.injEq, List.cons.injEq]
      exact ⟨by omega, trivial⟩

/-- Closed round-trip instance of `hexlify_roundtrip` at an 8-byte WWN. -/
theorem hexlify_roundtrip_example :
    (hexlifyChars [0x50, 0x01, 0x43, 0x80, 0x12, 0x34, 0x56, 0x78]).length = 16 ∧
    unhexlifyChars (hexlifyChars [0x50, 0x01, 0x43, 0x80, 0x12, 0x34, 0x56, 0x78]) =
      some [0x50, 0x01, 0x43, 0x80, 0x12, 0x34, 0x56, 0x78] :=
  hexlify_roundtrip [0x50, 0x01, 0x43, 0x80, 0x12, 0x34, 0x56, 0x78] (by decide)

/-- C6 (evaluation at the failing input): `translate_wwn` big-endian
hex-encodes an 8-byte array to exactly 16 hex characters, and decoding
reproduces the bytes (shown on a concrete array); but under Python 3
(`PY3 = true`) an empty source is NOT treated as eight zero bytes: the
guard `source != ''` compares bytes with str and is always true, so the
empty source hex-encodes to the empty string and the result is the WWN of
`""` rather than the all-zero WWN.  Only under Python 2 (`PY3 = false`)
does the zero-fill branch run. -/
theorem translate_wwn_empty_source_bug :
    translate_wwn true [0x50, 0x01, 0x43, 0x80, 0x12, 0x34, 0x56, 0x78] =
      ⟨"5001438012345678"⟩ ∧
    ("5001438012345678".toList).length = 16 ∧
    unhexlifyChars ("5001438012345678".toList) =
      some [0x50, 0x01, 0x43, 0x80, 0x12, 0x34, 0x56, 0x78] ∧
    translate_wwn true [] = ⟨""⟩ ∧
    translate_wwn true [] ≠ ⟨"0000000000000000"⟩ ∧
    translate_wwn false [] = ⟨"0000000000000000"⟩ := by decide

end Hbaapi
